import Mathlib

/-!
Verification of the DDAI SQL-file generator (src/generator.py) against its
natural-language specification.

The Python program is embedded shallowly:

* Python exceptions become the `PyError` inductive; `Except PyError` models
  raising.  The tuple caught by `main` (ValueError, ConnectionError,
  FileNotFoundError, RuntimeError) is the predicate `caughtByMain`.
* A database row (RealDictCursor dict) is an association list; `row[k]`
  is `rowGet`, returning `none` where Python raises KeyError.
* The backend connection is a pure function from a query string to either a
  database-level error (psycopg2.Error) or a list of rows, matching the
  read-only, all-rows-at-once contract of cursor.execute/fetchall.
* A Python str.format template is a list of literal and placeholder parts;
  `formatTemplate` substitutes bindings and fails with KeyError on the first
  placeholder absent from the bindings, as str.format does.
* File writes are recorded as an ordered trace of (path, content) pairs;
  the observable filesystem effect of a trace is `applyWrites` (later writes
  overwrite earlier ones, as open(path, "w") does).  Directory creation
  (os.makedirs) has no observable effect on file contents and is not recorded.
* Query executions are recorded as an ordered trace of query strings, one
  entry per cursor.execute call.
* find_project_root walks real directories; here a filesystem is an
  existence predicate on absolute paths represented as component lists, and
  walking to the parent drops the last component, with the filesystem root
  as the empty list (os.path.dirname fixpoint).
-/

/-- Python exception values raised by generator.py, by dynamic type. -/
inductive PyError where
  | valueError (msg : String)
  | connectionError (msg : String)
  | fileNotFoundError (msg : String)
  | runtimeError (msg : String)
  | keyError (key : String)
  | dbError (msg : String)
  | yamlError (msg : String)
  | indexError
deriving Repr, DecidableEq

/-- The exception tuple of the `except` clause in main (generator.py line 140):
ValueError, ConnectionError, FileNotFoundError, RuntimeError.  Other
exceptions (KeyError, psycopg2.Error, yaml errors, IndexError) escape. -/
def caughtByMain : PyError → Bool
  | .valueError _ => true
  | .connectionError _ => true
  | .fileNotFoundError _ => true
  | .runtimeError _ => true
  | _ => false

/-- One database row: field name to value, as returned by RealDictCursor. -/
abbrev Row : Type := List (String × String)

/-- Dictionary access row[k]; `none` models a KeyError being raised. -/
def rowGet (r : Row) (k : String) : Option String :=
  List.lookup k r

/-- One part of a str.format template: literal text or a {key} placeholder. -/
inductive TemplatePart where
  | lit (s : String)
  | ph (k : String)
deriving Repr, DecidableEq

/-- A str.format template string, parsed into parts. -/
abbrev Template : Type := List TemplatePart

/-- The placeholder keys a template references, left to right. -/
def placeholdersOf (t : Template) : List String :=
  t.filterMap fun p => match p with
    | .ph k => some k
    | .lit _ => none

/-- template.format(**bindings): substitutes each placeholder from the
bindings; raises KeyError on the first placeholder with no binding, exactly
as Python str.format does.  Unused bindings are ignored. -/
def formatTemplate : Template → List (String × String) → Except PyError String
  | [], _ => .ok ""
  | .lit s :: rest, b =>
    match formatTemplate rest b with
    | .error e => .error e
    | .ok tail => .ok (s ++ tail)
  | .ph k :: rest, b =>
    match List.lookup k b with
    | none => .error (.keyError k)
    | some v =>
      match formatTemplate rest b with
      | .error e => .error e
      | .ok tail => .ok (v ++ tail)

/-- String.startsWith, stated over the character list so that proofs can
evaluate it. -/
def strStartsWith (s pre : String) : Bool :=
  pre.data.isPrefixOf s.data

/-- String.endsWith, stated over the character list so that proofs can
evaluate it. -/
def strEndsWith (s suf : String) : Bool :=
  suf.data.reverse.isPrefixOf s.data.reverse

/-- os.path.join for two POSIX path strings. -/
def osPathJoin (a b : String) : String :=
  if strStartsWith b "/" then b
  else if a = "" ∨ strEndsWith a "/" then a ++ b
  else a ++ "/" ++ b

/-- One query descriptor of the params list: a mapping with key `query`. -/
structure QueryDescriptor where
  query : String
deriving Repr, DecidableEq

/-- One entry of the dynamic_models list of the YAML configuration. -/
structure ModelSpec where
  name : Template
  location : Template
  sql : Template
  params : List QueryDescriptor
deriving Repr, DecidableEq

/-- The parsed YAML configuration: top-level key dynamic_models. -/
structure Config where
  dynamic_models : List ModelSpec
deriving Repr, DecidableEq

/-- The backend capability: executing a query yields either a
database-level error (psycopg2.Error, carried as its message) or rows. -/
abbrev Backend : Type := String → Except String (List Row)

/-- A projected customer row: \x7bcustomer, customer_env\x7d. -/
structure Customer where
  customer : String
  customer_env : String
deriving Repr, DecidableEq

/-- The dict comprehension body of get_customers_from_postgres line 88:
reads row[customer] then row[customer_env]; an error carries the missing
key of the first failing access. -/
def projectCustomer (r : Row) : Except String Customer :=
  match rowGet r "customer" with
  | none => .error "customer"
  | some c =>
    match rowGet r "customer_env" with
    | none => .error "customer_env"
    | some e => .ok ⟨c, e⟩

/-- The list comprehension of lines 87-90, row by row, stopping at the
first row whose projection raises. -/
def projectCustomers : List Row → Except String (List Customer)
  | [] => .ok []
  | r :: rest =>
    match projectCustomer r with
    | .error k => .error k
    | .ok c =>
      match projectCustomers rest with
      | .error k => .error k
      | .ok cs => .ok (c :: cs)

/-- get_customers_from_postgres (lines 81-95): execute the query and
project rows; ANY exception inside the try block — a backend failure or a
KeyError from a row access — is re-raised as
RuntimeError(f"Error executing query in PostgreSQL: ...").  Python renders
str(KeyError(k)) with quotes around the key. -/
def get_customers_from_postgres (backend : Backend) (query : String) :
    Except PyError (List Customer) :=
  match backend query with
  | .error e => .error (.runtimeError ("Error executing query in PostgreSQL: " ++ e))
  | .ok rows =>
    match projectCustomers rows with
    | .error k =>
      .error (.runtimeError ("Error executing query in PostgreSQL: " ++ "\x27" ++ k ++ "\x27"))
    | .ok cs => .ok cs

/-- The list comprehension of line 107: row[table_name] for each model row,
with no surrounding try block, so a missing key raises a bare KeyError. -/
def getModels : List Row → Except String (List String)
  | [] => .ok []
  | r :: rest =>
    match rowGet r "table_name" with
    | none => .error "table_name"
    | some m =>
      match getModels rest with
      | .error k => .error k
      | .ok ms => .ok (m :: ms)

/-- The task order of the nested loops (lines 109-112): every model for the
first customer, then every model for the second customer, and so on. -/
def crossTasks (customers : List Customer) (models : List String) :
    List (Customer × String) :=
  customers.flatMap fun c => models.map fun m => (c, m)

/-- The body of the inner loop (lines 113-130) for one (customer, model)
task: render the location template with \x7bcustomer, customer_env\x7d, join it
under the project root when one was found, render the name template with
\x7bcustomer, model\x7d and append ".sql", render the sql template with
\x7bcustomer, model\x7d; the result is the (path, content) pair written.
Renders happen in source order: location, then name, then sql. -/
def renderTask (root : Option String) (spec : ModelSpec) (c : Customer)
    (m : String) : Except PyError (String × String) :=
  match formatTemplate spec.location
      [("customer", c.customer), ("customer_env", c.customer_env)] with
  | .error e => .error e
  | .ok dir =>
    let dirFull := match root with
      | some r => osPathJoin r dir
      | none => dir
    match formatTemplate spec.name [("customer", c.customer), ("model", m)] with
    | .error e => .error e
    | .ok fname =>
      match formatTemplate spec.sql [("customer", c.customer), ("model", m)] with
      | .error e => .error e
      | .ok content => .ok (osPathJoin dirFull (fname ++ ".sql"), content)

/-- Runs the task list in order, recording each (path, content) write;
the first raising task aborts the run, keeping the writes already made. -/
def runTasks (root : Option String) (spec : ModelSpec) :
    List (Customer × String) → List (String × String) × Option PyError
  | [] => ([], none)
  | cm :: rest =>
    match renderTask root spec cm.1 cm.2 with
    | .error e => ([], some e)
    | .ok w =>
      (w :: (runTasks root spec rest).1, (runTasks root spec rest).2)

/-- The body of the outer loop of generate_sql_files (lines 99-131) for one
ModelSpec: read params[0].query and fetch customers (wrapped errors), read
params[1].query and fetch model rows (unwrapped psycopg2 / KeyError), then
run every task of the cross product.  Returns the trace of executed
queries, the trace of writes, and the first error if any. -/
def processSpec (backend : Backend) (root : Option String) (spec : ModelSpec) :
    List String × List (String × String) × Option PyError :=
  match spec.params.get? 0 with
  | none => ([], [], some .indexError)
  | some p0 =>
    match get_customers_from_postgres backend p0.query with
    | .error e => ([p0.query], [], some e)
    | .ok customers =>
      match spec.params.get? 1 with
      | none => ([p0.query], [], some .indexError)
      | some p1 =>
        match backend p1.query with
        | .error e => ([p0.query, p1.query], [], some (.dbError e))
        | .ok mrows =>
          match getModels mrows with
          | .error k => ([p0.query, p1.query], [], some (.keyError k))
          | .ok models =>
            ([p0.query, p1.query], runTasks root spec (crossTasks customers models))

/-- generate_sql_files (lines 98-131): process the dynamic_models list in
order, aborting at the first spec that raises; traces accumulate. -/
def generate_sql_files (backend : Backend) (root : Option String) :
    List ModelSpec → List String × List (String × String) × Option PyError
  | [] => ([], [], none)
  | spec :: rest =>
    match processSpec backend root spec with
    | (qs, ws, some e) => (qs, ws, some e)
    | (qs, ws, none) =>
      (qs ++ (generate_sql_files backend root rest).1,
       ws ++ (generate_sql_files backend root rest).2.1,
       (generate_sql_files backend root rest).2.2)

/-- An abstract filesystem for path walking: which absolute paths exist.
A path is its list of components below the filesystem root. -/
abbrev FsExists : Type := List String → Bool

/-- The while loop of find_project_root, with an explicit iteration bound
so the recursion is structural: each pass checks current_path/.git and
moves to the parent (os.path.dirname drops the last path component). -/
def find_project_root_loop (ex : FsExists) : Nat → List String → Option (List String)
  | 0, _ => none
  | fuel + 1, p =>
    if ex (p ++ [".git"]) then some p
    else
      match p with
      | [] => none
      | a :: rest => find_project_root_loop ex fuel (a :: rest).dropLast

/-- find_project_root (lines 8-16): walk upward from the start path until
a .git marker is found; return None when the filesystem root (the empty
component list, the os.path.dirname fixpoint) is reached without one.
The root itself is still checked before the fixpoint test, as in the
source; p.length + 1 iterations always reach the fixpoint. -/
def find_project_root (ex : FsExists) (p : List String) : Option (List String) :=
  find_project_root_loop ex (p.length + 1) p

/-- Renders a component-list path as the absolute path string
os.path.abspath produces. -/
def pathString (p : List String) : String :=
  "/" ++ String.intercalate "/" p

/-- load_yaml_config (lines 69-78): find the project root from the script
directory; FileNotFoundError when no root, FileNotFoundError naming the
expected path when models/dynamic_models.yml is absent; otherwise
yaml.safe_load, whose own failure is a yaml error main does not catch. -/
def load_yaml_config (ex : FsExists) (scriptDir : List String)
    (yamlParse : Except String Config) : Except PyError Config :=
  match find_project_root ex scriptDir with
  | none => .error (.fileNotFoundError "Project root (indicated by .git directory) not found.")
  | some root =>
    if ex (root ++ ["models", "dynamic_models.yml"]) then
      match yamlParse with
      | .error m => .error (.yamlError m)
      | .ok c => .ok c
    else
      .error (.fileNotFoundError ("YAML config file not found at: " ++
        osPathJoin (osPathJoin (pathString root) "models") "dynamic_models.yml"))

/-- Everything main consumes from the outside world: the outcome of
setup_postgres_client (ValueError for a missing variable, ConnectionError
for a failed connect), the filesystem existence predicate, the directory
of the script (os.path.dirname(os.path.abspath(file))), the result of
parsing the YAML file when it exists, and the backend query capability. -/
structure Env where
  connResult : Except PyError Unit
  fsExists : FsExists
  scriptDir : List String
  yamlParse : Except String Config
  backend : Backend

/-- The observable outcome of main: `success` and `caughtError` return
normally (process exit status 0); `caughtError` additionally prints
"An error occurred: ..."; `uncaught` is an exception escaping main and
terminating the interpreter with a traceback.  Each carries the file
writes performed before finishing, which are left in place. -/
inductive MainOutcome where
  | success (writes : List (String × String))
  | caughtError (e : PyError) (writes : List (String × String))
  | uncaught (e : PyError) (writes : List (String × String))
deriving Repr, DecidableEq

/-- main (lines 134-144), named mainDriver because Lean reserves `main`:
connect, load config, generate; the except clause catches exactly
(ValueError, ConnectionError, FileNotFoundError, RuntimeError) and
returns normally after printing. -/
def mainDriver (env : Env) : MainOutcome :=
  match env.connResult with
  | .error e => if caughtByMain e then .caughtError e [] else .uncaught e []
  | .ok _ =>
    match load_yaml_config env.fsExists env.scriptDir env.yamlParse with
    | .error e => if caughtByMain e then .caughtError e [] else .uncaught e []
    | .ok config =>
      let root := (find_project_root env.fsExists env.scriptDir).map pathString
      match generate_sql_files env.backend root config.dynamic_models with
      | (_, ws, none) => .success ws
      | (_, ws, some e) =>
        if caughtByMain e then .caughtError e ws else .uncaught e ws

/-- The content at path p after a trace of writes ran against a filesystem
where no written path existed: the LAST write to p wins, matching
open(path, "w") truncate-and-write semantics. -/
def lastWrite : List (String × String) → String → Option String
  | [], _ => none
  | w :: ws, p =>
    match lastWrite ws p with
    | some v => some v
    | none => if w.1 = p then some w.2 else none

/-- Applies a write trace, in order, to a filesystem given as a
path-to-content map. -/
def applyWrites (fs : String → Option String) :
    List (String × String) → String → Option String
  | [] => fs
  | w :: ws => applyWrites (fun p => if w.1 = p then some w.2 else fs p) ws

/-! Concrete fixtures, used to exercise the theorems below on closed
inputs.  They follow the worked scenario of the specification: one spec,
one customer row (acme, prod), two model rows (orders, invoices). -/

/-- A representative ModelSpec. -/
def demoSpec : ModelSpec where
  name := [.lit "cdm_", .ph "customer", .lit "_", .ph "model"]
  location := [.lit "models/customers/", .ph "customer", .lit "/", .ph "customer_env"]
  sql := [.lit "select * from ", .ph "model", .lit " where tenant=", .ph "customer"]
  params := [⟨"CQ"⟩, ⟨"MQ"⟩]

/-- A backend answering the two demo queries. -/
def demoBackend : Backend := fun q =>
  if q = "CQ" then .ok [[("customer", "acme"), ("customer_env", "prod")]]
  else if q = "MQ" then .ok [[("table_name", "orders")], [("table_name", "invoices")]]
  else .error "relation does not exist"

/-- A filesystem with a repository at /repo containing the config file;
the script lives in /repo/scripts. -/
def demoFs : FsExists := fun p =>
  p == ["repo", ".git"] || p == ["repo", "models", "dynamic_models.yml"]

/-- A fully healthy environment. -/
def demoEnv : Env where
  connResult := .ok ()
  fsExists := demoFs
  scriptDir := ["repo", "scripts"]
  yamlParse := .ok ⟨[demoSpec]⟩
  backend := demoBackend

/-- The demo spec with a name template that ignores the model. -/
def collapseSpec : ModelSpec :=
  { demoSpec with name := [.lit "cdm_", .ph "customer"] }

/-- The demo spec with a location template referencing the model — a key
outside the binding subset used for locations. -/
def badLocSpec : ModelSpec :=
  { demoSpec with location := [.ph "model"] }

/-- Demo backend whose customer row lacks customer_env. -/
def badCustomerBackend : Backend := fun q =>
  if q = "CQ" then .ok [[("customer", "acme")]]
  else if q = "MQ" then .ok [[("table_name", "orders")]]
  else .error "relation does not exist"

/-- Demo backend whose model row lacks table_name. -/
def badModelBackend : Backend := fun q =>
  if q = "CQ" then .ok [[("customer", "acme"), ("customer_env", "prod")]]
  else if q = "MQ" then .ok [[("tablename", "orders")]]
  else .error "relation does not exist"

/-- Demo backend whose customer query returns no rows. -/
def emptyCustomerBackend : Backend := fun q =>
  if q = "CQ" then .ok []
  else if q = "MQ" then .ok [[("table_name", "orders")]]
  else .error "relation does not exist"

/-- A filesystem with no .git marker anywhere. -/
def bareFs : FsExists := fun _ => false

/-- A filesystem with a repository root but no models/dynamic_models.yml. -/
def noYamlFs : FsExists := fun p => p == ["repo", ".git"]

/-! Helper lemmas. -/

theorem projectCustomers_forall₂ (rows : List Row) (C : List Customer)
    (h : projectCustomers rows = .ok C) :
    List.Forall₂ (fun r c => projectCustomer r = .ok c) rows C := by
  induction rows generalizing C with
  | nil =>
    simp only [projectCustomers] at h
    cases h
    exact .nil
  | cons r rest ih =>
    simp only [projectCustomers] at h
    cases hr : projectCustomer r with
    | error k => rw [hr] at h; cases h
    | ok c =>
      rw [hr] at h
      cases hrest : projectCustomers rest with
      | error k => rw [hrest] at h; cases h
      | ok cs =>
        rw [hrest] at h
        cases h
        exact .cons hr (ih cs hrest)

theorem getModels_forall₂ (rows : List Row) (M : List String)
    (h : getModels rows = .ok M) :
    List.Forall₂ (fun r m => rowGet r "table_name" = some m) rows M := by
  induction rows generalizing M with
  | nil =>
    simp only [getModels] at h
    cases h
    exact .nil
  | cons r rest ih =>
    simp only [getModels] at h
    cases hr : rowGet r "table_name" with
    | none => rw [hr] at h; cases h
    | some m =>
      rw [hr] at h
      cases hrest : getModels rest with
      | error k => rw [hrest] at h; cases h
      | ok ms =>
        rw [hrest] at h
        cases h
        exact .cons hr (ih ms hrest)

theorem projectCustomer_error_key (r : Row) (k : String)
    (h : projectCustomer r = .error k) :
    k = "customer" ∨ k = "customer_env" := by
  unfold projectCustomer at h
  cases h1 : rowGet r "customer" with
  | none => rw [h1] at h; cases h; exact Or.inl rfl
  | some c =>
    rw [h1] at h
    cases h2 : rowGet r "customer_env" with
    | none => rw [h2] at h; cases h; exact Or.inr rfl
    | some e => rw [h2] at h; cases h

theorem projectCustomer_error_of_missing (r : Row)
    (h : rowGet r "customer" = none ∨ rowGet r "customer_env" = none) :
    ∃ k, projectCustomer r = .error k := by
  unfold projectCustomer
  cases h1 : rowGet r "customer" with
  | none => exact ⟨"customer", rfl⟩
  | some c =>
    cases h2 : rowGet r "customer_env" with
    | none => exact ⟨"customer_env", rfl⟩
    | some e =>
      rcases h with h | h
      · rw [h1] at h; cases h
      · rw [h2] at h; cases h

theorem projectCustomers_error_of_bad (rows : List Row)
    (h : ∃ r ∈ rows, ∃ k0, projectCustomer r = .error k0) :
    ∃ k, (k = "customer" ∨ k = "customer_env") ∧
      projectCustomers rows = .error k := by
  induction rows with
  | nil => rcases h with ⟨r, hr, _⟩; cases hr
  | cons r rest ih =>
    cases hr : projectCustomer r with
    | error k =>
      exact ⟨k, projectCustomer_error_key r k hr, by
        simp only [projectCustomers, hr]⟩
    | ok c =>
      rcases h with ⟨r0, hmem, k0, hk0⟩
      rcases List.mem_cons.mp hmem with heq | hmem0
      · subst heq; rw [hr] at hk0; cases hk0
      · rcases ih ⟨r0, hmem0, k0, hk0⟩ with ⟨k, hkey, hlist⟩
        exact ⟨k, hkey, by simp only [projectCustomers, hr, hlist]⟩

theorem getModels_error_of_bad (rows : List Row)
    (h : ∃ r ∈ rows, rowGet r "table_name" = none) :
    getModels rows = .error "table_name" := by
  induction rows with
  | nil => rcases h with ⟨r, hr, _⟩; cases hr
  | cons r rest ih =>
    cases hr : rowGet r "table_name" with
    | none => simp only [getModels, hr]
    | some m =>
      rcases h with ⟨r0, hmem, hk0⟩
      rcases List.mem_cons.mp hmem with heq | hmem0
      · subst heq; rw [hr] at hk0; cases hk0
      · simp only [getModels, hr, ih ⟨r0, hmem0, hk0⟩]

theorem runTasks_forall₂ (root : Option String) (spec : ModelSpec)
    (tasks : List (Customer × String)) (ws : List (String × String))
    (h : runTasks root spec tasks = (ws, none)) :
    List.Forall₂ (fun cm w => renderTask root spec cm.1 cm.2 = .ok w)
      tasks ws := by
  induction tasks generalizing ws with
  | nil =>
    simp only [runTasks] at h
    cases h
    exact .nil
  | cons cm rest ih =>
    simp only [runTasks] at h
    cases hr : renderTask root spec cm.1 cm.2 with
    | error e => rw [hr] at h; cases h
    | ok w =>
      rw [hr] at h
      injection h with h1 h2
      subst h1
      have hrest : runTasks root spec rest = ((runTasks root spec rest).1, none) := by
        rw [← h2]
      exact .cons hr (ih _ hrest)

theorem crossTasks_length (C : List Customer) (M : List String) :
    (crossTasks C M).length = C.length * M.length := by
  induction C with
  | nil => simp [crossTasks]
  | cons c rest ih =>
    simp only [crossTasks, List.flatMap_cons, List.length_append,
      List.length_map, List.length_cons] at ih ⊢
    rw [ih]
    ring

theorem applyWrites_eq_lastWrite (ws : List (String × String))
    (fs : String → Option String) (p : String) :
    applyWrites fs ws p =
      match lastWrite ws p with
      | some v => some v
      | none => fs p := by
  induction ws generalizing fs with
  | nil => simp [applyWrites, lastWrite]
  | cons w rest ih =>
    simp only [applyWrites, lastWrite, ih]
    cases lastWrite rest p with
    | some v => rfl
    | none => by_cases h : w.1 = p <;> simp [h]

theorem find_project_root_loop_some (ex : FsExists) :
    ∀ (fuel : Nat) (p r : List String),
      find_project_root_loop ex fuel p = some r →
      (∃ tail, p = r ++ tail) ∧ ex (r ++ [".git"]) = true := by
  intro fuel
  induction fuel with
  | zero => intro p r h; cases h
  | succ n ih =>
    intro p r h
    simp only [find_project_root_loop] at h
    by_cases hg : ex (p ++ [".git"]) = true
    · rw [if_pos hg] at h
      cases h
      exact ⟨⟨[], (List.append_nil _).symm⟩, hg⟩
    · rw [if_neg hg] at h
      cases p with
      | nil => cases h
      | cons a rest =>
        rcases ih (a :: rest).dropLast r h with ⟨⟨tail, htail⟩, hex⟩
        refine ⟨⟨tail ++ [(a :: rest).getLast (by simp)], ?_⟩, hex⟩
        rw [← List.append_assoc, ← htail]
        exact (List.dropLast_append_getLast (by simp)).symm

theorem find_project_root_some (ex : FsExists) (p r : List String)
    (h : find_project_root ex p = some r) :
    (∃ tail, p = r ++ tail) ∧ ex (r ++ [".git"]) = true :=
  find_project_root_loop_some ex (p.length + 1) p r h

theorem find_project_root_loop_none (ex : FsExists) :
    ∀ (fuel : Nat) (p : List String),
      (∀ a tail, p = a ++ tail → ex (a ++ [".git"]) = false) →
      find_project_root_loop ex fuel p = none := by
  intro fuel
  induction fuel with
  | zero => intro p _; rfl
  | succ n ih =>
    intro p h
    have hp : ex (p ++ [".git"]) = false := h p [] (List.append_nil p).symm
    simp only [find_project_root_loop, hp, Bool.false_eq_true, if_false]
    cases p with
    | nil => rfl
    | cons a rest =>
      apply ih (a :: rest).dropLast
      intro b tail htail
      apply h b (tail ++ [(a :: rest).getLast (by simp)])
      rw [← List.append_assoc, ← htail]
      exact (List.dropLast_append_getLast (by simp)).symm

theorem find_project_root_none (ex : FsExists) (p : List String)
    (h : ∀ a tail, p = a ++ tail → ex (a ++ [".git"]) = false) :
    find_project_root ex p = none :=
  find_project_root_loop_none ex (p.length + 1) p h

/-- Claim C1: for a spec whose customer query resolves to C and whose
model query resolves to M, processing the spec without error writes
exactly C.length * M.length files, paired one to one and in order with
the cross product of C and M — no omissions, no extra duplicates. -/
theorem claim1_cross_product_completeness
    (backend : Backend) (root : Option String) (spec : ModelSpec)
    (p0 p1 : QueryDescriptor) (C : List Customer)
    (mrows : List Row) (M : List String)
    (qs : List String) (ws : List (String × String))
    (h0 : spec.params.get? 0 = some p0)
    (h1 : spec.params.get? 1 = some p1)
    (hC : get_customers_from_postgres backend p0.query = .ok C)
    (hmq : backend p1.query = .ok mrows)
    (hM : getModels mrows = .ok M)
    (hrun : processSpec backend root spec = (qs, ws, none)) :
    ws.length = C.length * M.length ∧
    List.Forall₂ (fun cm w => renderTask root spec cm.1 cm.2 = .ok w)
      (crossTasks C M) ws := by
  simp only [processSpec, h0, h1, hC, hmq, hM] at hrun
  injection hrun with hq hrest
  have hf := runTasks_forall₂ root spec (crossTasks C M) ws hrest
  refine ⟨?_, hf⟩
  rw [← List.Forall₂.length_eq hf, crossTasks_length]

theorem claim1_cross_product_completeness_witness :
    ([("/repo/models/customers/acme/prod/cdm_acme_orders.sql",
       "select * from orders where tenant=acme"),
      ("/repo/models/customers/acme/prod/cdm_acme_invoices.sql",
       "select * from invoices where tenant=acme")] :
        List (String × String)).length =
      ([⟨"acme", "prod"⟩] : List Customer).length *
        (["orders", "invoices"] : List String).length ∧
    List.Forall₂
      (fun cm w => renderTask (some "/repo") demoSpec cm.1 cm.2 = .ok w)
      (crossTasks [⟨"acme", "prod"⟩] ["orders", "invoices"])
      [("/repo/models/customers/acme/prod/cdm_acme_orders.sql",
        "select * from orders where tenant=acme"),
       ("/repo/models/customers/acme/prod/cdm_acme_invoices.sql",
        "select * from invoices where tenant=acme")] :=
  claim1_cross_product_completeness demoBackend (some "/repo") demoSpec
    ⟨"CQ"⟩ ⟨"MQ"⟩ [⟨"acme", "prod"⟩]
    [[("table_name", "orders")], [("table_name", "invoices")]]
    ["orders", "invoices"] ["CQ", "MQ"]
    [("/repo/models/customers/acme/prod/cdm_acme_orders.sql",
      "select * from orders where tenant=acme"),
     ("/repo/models/customers/acme/prod/cdm_acme_invoices.sql",
      "select * from invoices where tenant=acme")]
    rfl rfl rfl rfl rfl rfl

/-- Claim C2: for one generation task the output file path is
join(project_root, render(location, customer, customer_env),
render(name, customer, model) ++ ".sql") and the content is
render(sql, customer, model); renderTask is a pure function of the spec,
the customer record, the model and the project root, so the path depends
on nothing else — no ordering, no counters. -/
theorem claim2_output_path_formula
    (r dir fname content : String) (spec : ModelSpec) (c : Customer)
    (m : String)
    (hloc : formatTemplate spec.location
      [("customer", c.customer), ("customer_env", c.customer_env)] = .ok dir)
    (hname : formatTemplate spec.name
      [("customer", c.customer), ("model", m)] = .ok fname)
    (hsql : formatTemplate spec.sql
      [("customer", c.customer), ("model", m)] = .ok content) :
    renderTask (some r) spec c m =
      .ok (osPathJoin (osPathJoin r dir) (fname ++ ".sql"), content) := by
  simp only [renderTask, hloc, hname, hsql]

theorem claim2_output_path_formula_witness :
    renderTask (some "/repo") demoSpec ⟨"acme", "prod"⟩ "orders" =
      .ok (osPathJoin (osPathJoin "/repo" "models/customers/acme/prod")
        ("cdm_acme_orders" ++ ".sql"),
        "select * from orders where tenant=acme") :=
  claim2_output_path_formula "/repo" "models/customers/acme/prod"
    "cdm_acme_orders" "select * from orders where tenant=acme"
    demoSpec ⟨"acme", "prod"⟩ "orders" rfl rfl rfl

/-- Claim C3: a customer-enumeration row missing the customer key or the
customer_env key makes the run fail before any file is written — the
KeyError of the row access is wrapped into the RuntimeError realizing the
MissingField condition, no file of this spec is written, and no later
spec is processed (the model query of the failing spec is not even
executed). -/
theorem claim3_missing_customer_field_aborts
    (backend : Backend) (root : Option String) (spec : ModelSpec)
    (rest : List ModelSpec) (p0 : QueryDescriptor) (crows : List Row)
    (h0 : spec.params.get? 0 = some p0)
    (hq : backend p0.query = .ok crows)
    (hbad : ∃ r ∈ crows,
      rowGet r "customer" = none ∨ rowGet r "customer_env" = none) :
    ∃ k, (k = "customer" ∨ k = "customer_env") ∧
      generate_sql_files backend root (spec :: rest) =
        ([p0.query], [],
         some (.runtimeError
           ("Error executing query in PostgreSQL: " ++ "\x27" ++ k ++ "\x27"))) := by
  obtain ⟨r, hmem, hre⟩ := hbad
  obtain ⟨k0, hk0⟩ := projectCustomer_error_of_missing r hre
  obtain ⟨k, hkey, hproj⟩ :=
    projectCustomers_error_of_bad crows ⟨r, hmem, k0, hk0⟩
  refine ⟨k, hkey, ?_⟩
  simp only [generate_sql_files, processSpec, h0,
    get_customers_from_postgres, hq, hproj]

theorem claim3_missing_customer_field_aborts_witness :
    ∃ k, (k = "customer" ∨ k = "customer_env") ∧
      generate_sql_files badCustomerBackend (some "/repo") [demoSpec] =
        (["CQ"], [],
         some (.runtimeError
           ("Error executing query in PostgreSQL: " ++ "\x27" ++ k ++ "\x27"))) :=
  claim3_missing_customer_field_aborts badCustomerBackend (some "/repo")
    demoSpec [] ⟨"CQ"⟩ [[("customer", "acme")]] rfl rfl
    ⟨[("customer", "acme")], by decide, Or.inr rfl⟩

/-- Claim C4: rendering a template referencing a key with no binding fails
with the KeyError realizing TemplateBindingError, naming a missing key of
the template; a template whose placeholders are all bound renders
successfully, so extra unused bindings are ignored; and concretely, a
name template using only the customer makes both demo models render to
the same path, with the last write winning. -/
theorem claim4_template_key_sensitivity :
    (∀ (t : Template) (b : List (String × String)) (k : String),
      k ∈ placeholdersOf t → List.lookup k b = none →
      ∃ j, j ∈ placeholdersOf t ∧ List.lookup j b = none ∧
        formatTemplate t b = .error (.keyError j)) ∧
    (∀ (t : Template) (b : List (String × String)),
      (∀ k ∈ placeholdersOf t, (List.lookup k b).isSome) →
      ∃ s, formatTemplate t b = .ok s) ∧
    ((processSpec demoBackend (some "/repo") collapseSpec).2 =
      ([("/repo/models/customers/acme/prod/cdm_acme.sql",
         "select * from orders where tenant=acme"),
        ("/repo/models/customers/acme/prod/cdm_acme.sql",
         "select * from invoices where tenant=acme")], none) ∧
     lastWrite (processSpec demoBackend (some "/repo") collapseSpec).2.1
       "/repo/models/customers/acme/prod/cdm_acme.sql" =
       some "select * from invoices where tenant=acme") := by
  refine ⟨?_, ?_, by constructor <;> rfl⟩
  · intro t
    induction t with
    | nil => intro b k hk _; simp [placeholdersOf] at hk
    | cons p rest ih =>
      intro b k hk hnone
      cases p with
      | lit s =>
        obtain ⟨j, hj, hjn, hfmt⟩ :=
          ih b k (by simpa [placeholdersOf] using hk) hnone
        refine ⟨j, by simpa [placeholdersOf] using hj, hjn, ?_⟩
        simp [formatTemplate, hfmt]
      | ph k0 =>
        cases hl : List.lookup k0 b with
        | none =>
          refine ⟨k0, by simp [placeholdersOf], hl, ?_⟩
          simp [formatTemplate, hl]
        | some v =>
          have hkrest : k ∈ placeholdersOf rest := by
            rcases (by simpa [placeholdersOf] using hk :
                k = k0 ∨ k ∈ placeholdersOf rest) with h | h
            · subst h; rw [hl] at hnone; cases hnone
            · exact h
          obtain ⟨j, hj, hjn, hfmt⟩ := ih b k hkrest hnone
          refine ⟨j, ?_, hjn, ?_⟩
          · simp only [placeholdersOf, List.filterMap_cons] at hj ⊢
            exact List.mem_cons_of_mem k0 hj
          · simp [formatTemplate, hl, hfmt]
  · intro t
    induction t with
    | nil => intro b _; exact ⟨"", rfl⟩
    | cons p rest ih =>
      intro b hall
      cases p with
      | lit s =>
        obtain ⟨s0, hs0⟩ :=
          ih b (fun k hk => hall k (by simpa [placeholdersOf] using hk))
        exact ⟨s ++ s0, by simp [formatTemplate, hs0]⟩
      | ph k0 =>
        have h0 := hall k0 (by simp [placeholdersOf])
        cases hl : List.lookup k0 b with
        | none => rw [hl] at h0; simp at h0
        | some v =>
          obtain ⟨s0, hs0⟩ := ih b (fun k hk => hall k (by
            simp only [placeholdersOf, List.filterMap_cons] at hk ⊢
            exact List.mem_cons_of_mem k0 hk))
          exact ⟨v ++ s0, by simp [formatTemplate, hl, hs0]⟩

theorem claim4_template_key_sensitivity_witness :
    (∃ j, j ∈ placeholdersOf badLocSpec.location ∧
      List.lookup j [("customer", "acme"), ("customer_env", "prod")] = none ∧
      formatTemplate badLocSpec.location
        [("customer", "acme"), ("customer_env", "prod")] =
        .error (.keyError j)) ∧
    (∃ s, formatTemplate collapseSpec.name
      [("customer", "acme"), ("model", "orders")] = .ok s) :=
  ⟨claim4_template_key_sensitivity.1 badLocSpec.location
    [("customer", "acme"), ("customer_env", "prod")] "model"
    (by decide) (by decide),
   claim4_template_key_sensitivity.2.1 collapseSpec.name
    [("customer", "acme"), ("model", "orders")] (by decide)⟩

/-- Claim C5: configuration loading walks upward from the script
directory — a returned root is an ancestor of the start that holds the
.git marker; when no ancestor holds the marker the run fails with the
FileNotFoundError realizing ConfigNotFound, and when a root is found but
models/dynamic_models.yml is absent there it fails with the
FileNotFoundError realizing ConfigMissing — in both cases before any
spec is processed, so no file is written. -/
theorem claim5_config_loading (env : Env) (hconn : env.connResult = .ok ()) :
    ((∀ a tail, env.scriptDir = a ++ tail →
        env.fsExists (a ++ [".git"]) = false) →
      mainDriver env = .caughtError
        (.fileNotFoundError
          "Project root (indicated by .git directory) not found.") []) ∧
    (∀ root, find_project_root env.fsExists env.scriptDir = some root →
      (∃ tail, env.scriptDir = root ++ tail) ∧
      env.fsExists (root ++ [".git"]) = true ∧
      (env.fsExists (root ++ ["models", "dynamic_models.yml"]) = false →
        mainDriver env = .caughtError
          (.fileNotFoundError ("YAML config file not found at: " ++
            osPathJoin (osPathJoin (pathString root) "models")
              "dynamic_models.yml")) [])) := by
  constructor
  · intro h
    have hn := find_project_root_none env.fsExists env.scriptDir h
    simp [mainDriver, hconn, load_yaml_config, hn, caughtByMain]
  · intro root hroot
    obtain ⟨htail, hgit⟩ :=
      find_project_root_some env.fsExists env.scriptDir root hroot
    refine ⟨htail, hgit, ?_⟩
    intro hyml
    simp [mainDriver, hconn, load_yaml_config, hroot, hyml, caughtByMain]

theorem claim5_config_loading_witness :
    mainDriver { demoEnv with fsExists := bareFs } = .caughtError
      (.fileNotFoundError
        "Project root (indicated by .git directory) not found.") [] ∧
    mainDriver { demoEnv with fsExists := noYamlFs } = .caughtError
      (.fileNotFoundError ("YAML config file not found at: " ++
        osPathJoin (osPathJoin (pathString ["repo"]) "models")
          "dynamic_models.yml")) [] :=
  ⟨(claim5_config_loading { demoEnv with fsExists := bareFs } rfl).1
    (fun a tail h => rfl),
   ((claim5_config_loading { demoEnv with fsExists := noYamlFs } rfl).2
    ["repo"] (by decide)).2.2 (by decide)⟩

/-- Claim C6: processing one spec executes the customer query and the
model query exactly once each — the executed-query trace of the spec is
precisely [params0.query, params1.query], whatever the number of tasks
generated — and the resolved sequences are the row projections in backend
order, element by element: no sorting, no deduplication. -/
theorem claim6_queries_once_and_verbatim
    (backend : Backend) (root : Option String) (spec : ModelSpec)
    (p0 p1 : QueryDescriptor) (crows mrows : List Row)
    (C : List Customer) (M : List String)
    (h0 : spec.params.get? 0 = some p0)
    (h1 : spec.params.get? 1 = some p1)
    (hcq : backend p0.query = .ok crows)
    (hmq : backend p1.query = .ok mrows)
    (hC : projectCustomers crows = .ok C)
    (hM : getModels mrows = .ok M) :
    (processSpec backend root spec).1 = [p0.query, p1.query] ∧
    List.Forall₂ (fun r c => projectCustomer r = .ok c) crows C ∧
    List.Forall₂ (fun r m => rowGet r "table_name" = some m) mrows M := by
  refine ⟨?_, projectCustomers_forall₂ crows C hC,
    getModels_forall₂ mrows M hM⟩
  simp only [processSpec, h0, h1, get_customers_from_postgres,
    hcq, hmq, hC, hM]

theorem claim6_queries_once_and_verbatim_witness :
    (processSpec demoBackend (some "/repo") demoSpec).1 = ["CQ", "MQ"] ∧
    List.Forall₂ (fun r c => projectCustomer r = .ok c)
      [[("customer", "acme"), ("customer_env", "prod")]]
      [⟨"acme", "prod"⟩] ∧
    List.Forall₂ (fun r m => rowGet r "table_name" = some m)
      [[("table_name", "orders")], [("table_name", "invoices")]]
      ["orders", "invoices"] :=
  claim6_queries_once_and_verbatim demoBackend (some "/repo") demoSpec
    ⟨"CQ"⟩ ⟨"MQ"⟩ [[("customer", "acme"), ("customer_env", "prod")]]
    [[("table_name", "orders")], [("table_name", "invoices")]]
    [⟨"acme", "prod"⟩] ["orders", "invoices"]
    rfl rfl rfl rfl rfl rfl

theorem applyWrites_twice (ws : List (String × String))
    (fs : String → Option String) :
    applyWrites (applyWrites fs ws) ws = applyWrites fs ws := by
  funext p
  simp only [applyWrites_eq_lastWrite]
  cases h : lastWrite ws p with
  | some v => rfl
  | none => rfl

/-- Claim C7: the generator is deterministic — its write trace is a pure
function of the backend, the project root and the configuration — and
idempotent: re-applying the write trace of a run to the filesystem that
the first run produced changes nothing, byte-identical contents at
byte-identical paths, the second overwrite being observationally a
no-op. -/
theorem claim7_idempotence (backend : Backend) (root : Option String)
    (specs : List ModelSpec) (fs : String → Option String) :
    applyWrites
        (applyWrites fs (generate_sql_files backend root specs).2.1)
        (generate_sql_files backend root specs).2.1 =
      applyWrites fs (generate_sql_files backend root specs).2.1 :=
  applyWrites_twice _ fs

/-- Claim C8 counterexample: a template-binding failure — the
TemplateBindingError condition of the defined taxonomy, here a location
template referencing the model — reaches main as a KeyError, which the
except clause does not list: the run ends with an uncaught exception, no
diagnostic is printed, contradicting the claim that any error of the
taxonomy is caught and the driver returns normally. -/
theorem claim8_counterexample :
    mainDriver { demoEnv with yamlParse := .ok ⟨[badLocSpec]⟩ } =
      .uncaught (.keyError "model") [] ∧
    caughtByMain (.keyError "model") = false := by
  constructor <;> rfl

/-- Claim C8 (amended): the driver catches exactly the errors of dynamic
type ValueError, ConnectionError, FileNotFoundError or RuntimeError — the
types realizing the config-location, connection and customer-query
failures — printing a diagnostic and returning normally with exit status
0, the already-written files staying in place; every other error
(KeyError from template binding or model rows, database errors on the
model query, yaml parse errors, IndexError) escapes uncaught. -/
theorem claim8_catch_policy (env : Env) (e : PyError)
    (ws : List (String × String)) :
    (mainDriver env = .caughtError e ws → caughtByMain e = true) ∧
    (mainDriver env = .uncaught e ws → caughtByMain e = false) := by
  have h8 : ∀ (e0 : PyError) (ws0 : List (String × String)),
      ((if caughtByMain e0 then MainOutcome.caughtError e0 ws0
        else MainOutcome.uncaught e0 ws0) = .caughtError e ws →
        caughtByMain e = true) ∧
      ((if caughtByMain e0 then MainOutcome.caughtError e0 ws0
        else MainOutcome.uncaught e0 ws0) = .uncaught e ws →
        caughtByMain e = false) := by
    intro e0 ws0
    by_cases hb : caughtByMain e0 = true
    · rw [if_pos hb]
      constructor <;> intro h
      · injection h with h1 h2
        subst h1
        exact hb
      · cases h
    · rw [if_neg hb]
      constructor <;> intro h
      · cases h
      · injection h with h1 h2
        subst h1
        simp at hb
        exact hb
  have h9 : ∀ (t : List String × List (String × String) × Option PyError),
      ((match t with
        | (_, ws0, none) => MainOutcome.success ws0
        | (_, ws0, some e0) =>
          if caughtByMain e0 then MainOutcome.caughtError e0 ws0
          else MainOutcome.uncaught e0 ws0) = .caughtError e ws →
        caughtByMain e = true) ∧
      ((match t with
        | (_, ws0, none) => MainOutcome.success ws0
        | (_, ws0, some e0) =>
          if caughtByMain e0 then MainOutcome.caughtError e0 ws0
          else MainOutcome.uncaught e0 ws0) = .uncaught e ws →
        caughtByMain e = false) := by
    rintro ⟨qs, ws0, err⟩
    cases err with
    | none => refine ⟨fun h => ?_, fun h => ?_⟩ <;> cases h
    | some e0 => exact h8 e0 ws0
  unfold mainDriver
  cases hc : env.connResult with
  | error e0 => exact h8 e0 []
  | ok u =>
    cases hl : load_yaml_config env.fsExists env.scriptDir env.yamlParse with
    | error e0 => exact h8 e0 []
    | ok cfg =>
      exact h9 (generate_sql_files env.backend
        ((find_project_root env.fsExists env.scriptDir).map pathString)
        cfg.dynamic_models)

theorem claim8_catch_policy_witness :
    caughtByMain (.runtimeError ("Error executing query in PostgreSQL: " ++
      "\x27" ++ "customer_env" ++ "\x27")) = true :=
  (claim8_catch_policy { demoEnv with backend := badCustomerBackend }
    (.runtimeError ("Error executing query in PostgreSQL: " ++
      "\x27" ++ "customer_env" ++ "\x27")) []).1 rfl

/-- Claim C9: a model-enumeration row lacking table_name raises a bare
KeyError, which is outside the tuple caught by main — unlike a missing
customer-row field, whose KeyError is wrapped into the caught
RuntimeError carrying the query-execution message — so no diagnostic is
printed and the exception escapes the driver. -/
theorem claim9_model_row_keyerror_escapes
    (env : Env) (cfg : Config) (spec : ModelSpec) (rest : List ModelSpec)
    (p0 p1 : QueryDescriptor) (C : List Customer) (mrows : List Row)
    (hconn : env.connResult = .ok ())
    (hload : load_yaml_config env.fsExists env.scriptDir env.yamlParse =
      .ok cfg)
    (hcfg : cfg.dynamic_models = spec :: rest)
    (h0 : spec.params.get? 0 = some p0)
    (h1 : spec.params.get? 1 = some p1)
    (hC : get_customers_from_postgres env.backend p0.query = .ok C)
    (hmq : env.backend p1.query = .ok mrows)
    (hbad : ∃ r ∈ mrows, rowGet r "table_name" = none) :
    mainDriver env = .uncaught (.keyError "table_name") [] ∧
    caughtByMain (.keyError "table_name") = false ∧
    (∀ msg, caughtByMain (.runtimeError msg) = true) := by
  have hget := getModels_error_of_bad mrows hbad
  refine ⟨?_, rfl, fun msg => rfl⟩
  simp only [mainDriver, hconn, hload, hcfg, generate_sql_files,
    processSpec, h0, h1, hC, hmq, hget, caughtByMain]
  rfl

theorem claim9_model_row_keyerror_escapes_witness :
    mainDriver { demoEnv with backend := badModelBackend } =
      .uncaught (.keyError "table_name") [] ∧
    caughtByMain (.keyError "table_name") = false ∧
    (∀ msg, caughtByMain (.runtimeError msg) = true) :=
  claim9_model_row_keyerror_escapes
    { demoEnv with backend := badModelBackend } ⟨[demoSpec]⟩ demoSpec []
    ⟨"CQ"⟩ ⟨"MQ"⟩ [⟨"acme", "prod"⟩] [[("tablename", "orders")]]
    rfl rfl rfl rfl rfl rfl rfl
    ⟨[("tablename", "orders")], by decide, rfl⟩

theorem crossTasks_nil_right (C : List Customer) : crossTasks C [] = [] := by
  induction C with
  | nil => rfl
  | cons c rest ih =>
    simp only [crossTasks, List.flatMap_cons, List.map_nil,
      List.nil_append] at ih ⊢
    exact ih

/-- Claim C10: when the customer query or the model query of a spec
returns no rows, the spec writes zero files and raises no error — both
queries still execute — and the run continues with the remaining specs
exactly as if the spec were absent. -/
theorem claim10_empty_resolution_continues
    (backend : Backend) (root : Option String) (spec : ModelSpec)
    (rest : List ModelSpec) (p0 p1 : QueryDescriptor)
    (h0 : spec.params.get? 0 = some p0)
    (h1 : spec.params.get? 1 = some p1)
    (hcase :
      (backend p0.query = .ok [] ∧
        ∃ mrows M, backend p1.query = .ok mrows ∧ getModels mrows = .ok M) ∨
      (∃ C, get_customers_from_postgres backend p0.query = .ok C ∧
        backend p1.query = .ok [])) :
    processSpec backend root spec = ([p0.query, p1.query], [], none) ∧
    generate_sql_files backend root (spec :: rest) =
      ([p0.query, p1.query] ++ (generate_sql_files backend root rest).1,
       (generate_sql_files backend root rest).2.1,
       (generate_sql_files backend root rest).2.2) := by
  have hps : processSpec backend root spec =
      ([p0.query, p1.query], [], none) := by
    rcases hcase with ⟨hc, mrows, M, hm, hM⟩ | ⟨C, hC, hm⟩
    · simp only [processSpec, h0, h1, get_customers_from_postgres, hc,
        projectCustomers, hm, hM]
      simp [crossTasks, runTasks]
    · simp only [processSpec, h0, h1, hC, hm, getModels,
        crossTasks_nil_right, runTasks]
  refine ⟨hps, ?_⟩
  simp only [generate_sql_files, hps, List.nil_append]

theorem claim10_empty_resolution_continues_witness :
    processSpec emptyCustomerBackend (some "/repo") demoSpec =
      (["CQ", "MQ"], [], none) ∧
    generate_sql_files emptyCustomerBackend (some "/repo") [demoSpec] =
      (["CQ", "MQ"] ++
        (generate_sql_files emptyCustomerBackend (some "/repo") []).1,
       (generate_sql_files emptyCustomerBackend (some "/repo") []).2.1,
       (generate_sql_files emptyCustomerBackend (some "/repo") []).2.2) :=
  claim10_empty_resolution_continues emptyCustomerBackend (some "/repo")
    demoSpec [] ⟨"CQ"⟩ ⟨"MQ"⟩ rfl rfl
    (Or.inl ⟨rfl, [[("table_name", "orders")]], ["orders"], rfl, rfl⟩)
